import Mathlib

/-!
Verification of the CKB chain driver's multi-client lifecycle, shallowly
embedded from `crates/relayer/src/chain/ckb.rs` of the synapse-relayer
repository.  The driver's external collaborators (ledger RPC and indexer, key
store, cryptographic verifier, storage backend, transaction assembler) live in
sibling modules and crates; their outcomes for one workflow invocation are
represented by an `Oracle` record, and their semantics, where a claim depends
on them, are modelled from the specification (each such definition says so in
its doc comment).  The driver's own control flow, state updates and error
construction are translated directly from the source.
-/

namespace CkbDriver

/-- One ring-slot client record (`packed::Client`): slot index `id`, the
inclusive attested range `[minimal_slot, maximal_slot]`, and an opaque
verification payload standing for the remaining packed fields. -/
structure Client where
  id : Nat
  minimal_slot : Nat
  maximal_slot : Nat
  payload : Nat
deriving DecidableEq

/-- The metadata cell (`packed::ClientInfo`). -/
structure ClientInfo where
  last_id : Nat
  minimal_updates_count : Nat
deriving DecidableEq

/-- A fetched `UpdateCells` snapshot; the cells' output data are kept in their
decoded form (`PackedClient::new_unchecked` / `PackedClientInfo::new_unchecked`
reinterpret the raw bytes). -/
structure UpdateCells where
  oldest : Client
  latest : Client
  info : ClientInfo
deriving DecidableEq

/-- Configuration field `client_type_args`: the optional 32-byte type id (modelled as a
natural number) and the cell count of the ring-buffer family. -/
structure ClientTypeArgs where
  type_id : Option Nat
  cells_count : Nat
deriving DecidableEq

/-- The fields of `CkbChainConfig` that the workflows read. -/
structure CkbChainConfig where
  id : String
  minimal_updates_count : Nat
  client_type_args : ClientTypeArgs
deriving DecidableEq

/-- The mutable state of the `CkbChain` driver that the claims mention: the
configuration, the Local Proof Store (the ordered list of verified slot
numbers; its tip is the last element) and the cached on-chain client. -/
structure CkbChain where
  config : CkbChainConfig
  storage : List Nat
  cached_onchain_packed_client : Option Client
deriving DecidableEq

/-- Accessor for `self.id()` of the chain endpoint: the configured chain identifier. -/
def CkbChain.id (s : CkbChain) : String := s.config.id

/-- The error values the embedded workflows construct, following
`crates/relayer/src/error.rs` constructors used in `ckb.rs`. -/
inductive Error where
  | light_client_verification (chain_id : String) (slot : Nat)
  | other_error (msg : String)
  | key_base
  | rpc_response
  | send_tx (msg : String)
  | storage_error
  | time_out
  | align_fail
  | verify_fail
deriving DecidableEq

/-- Events recording which external calls a workflow run performed, emitted at
each call site of the embedding. -/
inductive Event where
  | fetch_cells_call
  | align_call
  | verify_call
  | rollback_call (checkpoint : Option Nat)
  | assemble_create_call (clients : List Client) (info : ClientInfo)
  | assemble_update_call (cells : UpdateCells) (client : Client)
  | sign_call
  | send_call
  | poll_call
  | status_log_call
deriving DecidableEq

/-- Modelled from the spec: `Storage::rollback_to` of the storage crate
truncates the store, discarding all records after the checkpoint slot; a
`none` checkpoint means roll back to empty. -/
def rollback_to (slots : List Nat) (checkpoint : Option Nat) : List Nat :=
  match checkpoint with
  | none => []
  | some k => slots.filter (fun x => x ≤ k)

/-- Well-formedness of a store together with the slots a verification run
appends: every stored slot is at most the tip, and every appended slot is
beyond the tip (the spec's store is ordered and append-only, and the verifier
extends the tip). -/
def storeOkBool (slots appended : List Nat) : Bool :=
  match slots.getLast? with
  | none => true
  | some t => slots.all (fun x => x ≤ t) && appended.all (fun x => t < x)

/-- Outcomes of the driver's external collaborators for one workflow
invocation: RPC fetches, the alignment and verification steps, the storage
backend's rollback, the assembler, the key store, signing, broadcast, the
per-poll committed status, and the status log.  `verified_slots` are the slot
records a successful verification appends to the Local Proof Store (modelled
from the spec: the verifier adapter is the only writer and extends the tip). -/
structure Oracle where
  fetch_update_cells : Except Error (Option UpdateCells)
  align : Except Error Unit
  verify : Except Error (Client × Nat)
  verified_slots : List Nat
  rollback_ok : Bool
  tx_assembler_address : Except Error Unit
  assemble_create : Except Error Nat
  assemble_update : Except Error Unit
  get_key : Except Error Unit
  network : Except Error Unit
  sign : Except Error Unit
  send : Except String Nat
  send_err_is_duplicate : Bool
  pool_diag : Option String
  tx_json : String
  committed_at : Nat → Bool
  print_status : Except Error Unit

/-- Modelled from the spec: `utils::collect_ckb_tx_pool_info_on_duplicate_tx`
makes a best-effort diagnostic query of the local transaction pool when the
broadcast failure is a duplicate-transaction condition, and yields nothing
otherwise (or when the diagnostic query itself fails). -/
def collect_ckb_tx_pool_info_on_duplicate_tx (is_duplicate : Bool)
    (pool_diag : Option String) : Option String :=
  if is_duplicate then pool_diag else none

/-- Modelled from the spec: `utils::wait_ckb_transaction_committed` polls the
transaction status once per `interval` seconds for up to the `deadline`;
reaching a committed-to-block status within the deadline succeeds, exhausting
the deadline without it fails with a timeout error. -/
def wait_ckb_transaction_committed (committed_at : Nat → Bool)
    (interval deadline : Nat) : Except Error Unit :=
  if (List.range (deadline / interval)).any committed_at then .ok ()
  else .error .time_out

/-- The outputs of an assembled update transaction that the claims mention:
the new client cell and the bumped info cell. -/
structure UpdateTxOutputs where
  new_client : Client
  new_info : ClientInfo
deriving DecidableEq

/-- The outputs of an assembled create transaction. -/
structure CreateTxOutputs where
  clients : List Client
  info : ClientInfo
  type_id : Nat
deriving DecidableEq

/-- An assembled (unsigned) transaction. -/
inductive Tx where
  | create_tx (outputs : CreateTxOutputs)
  | update_tx (outputs : UpdateTxOutputs)
deriving DecidableEq

/-- Modelled from the spec: the ring-buffer assembler's update operation
spends the fetched `(oldest, latest, info)` cells and creates the new client
cell holding the given record together with a bumped info cell whose `last_id`
is the id the new client cell now occupies. -/
def assemble_update_multi_client_transaction (update_cells : UpdateCells)
    (updated_client : Client) : UpdateTxOutputs :=
  { new_client := updated_client
    new_info :=
      { last_id := updated_client.id
        minimal_updates_count := update_cells.info.minimal_updates_count } }

/-- Modelled from the spec: the ring-buffer assembler's create operation
instantiates the family cells from the given client records and info cell and
mints a fresh type id. -/
def assemble_create_multi_client_transaction (clients : List Client)
    (info : ClientInfo) (minted_type_id : Nat) : CreateTxOutputs :=
  { clients := clients, info := info, type_id := minted_type_id }

/-- The result of `sign_and_send_transaction` as a function of the external
outcomes: get the signing key, resolve the network, sign, broadcast (on a
broadcast failure, attach the best-effort pool diagnostic and the jsonified
transaction to the error), then wait for the committed status with a 3-second
interval and a 60-second deadline. -/
def sign_and_send_result (o : Oracle) : Except Error Unit :=
  match o.get_key with
  | .error _ => .error .key_base
  | .ok _ =>
    match o.network with
    | .error e => .error e
    | .ok _ =>
      match o.sign with
      | .error _ => .error .key_base
      | .ok _ =>
        match o.send with
        | .error msg =>
          let pool_log :=
            (collect_ckb_tx_pool_info_on_duplicate_tx o.send_err_is_duplicate
              o.pool_diag).getD ""
          let tx_info :=
            "== transaction for debugging is below ==\n" ++ o.tx_json
          .error (.send_tx (msg ++ "\n" ++ pool_log ++ "\n" ++ tx_info ++ "\n"))
        | .ok _ => wait_ckb_transaction_committed o.committed_at 3 60

/-- The external calls `sign_and_send_transaction` performs, in order. -/
def sign_send_trace (o : Oracle) : List Event :=
  match o.get_key with
  | .error _ => []
  | .ok _ =>
    match o.network with
    | .error _ => []
    | .ok _ =>
      Event.sign_call ::
        match o.sign with
        | .error _ => []
        | .ok _ =>
          Event.send_call ::
            match o.send with
            | .error _ => []
            | .ok _ => [Event.poll_call]

/-- Embedding of `CkbChain::sign_and_send_transaction`: signs the assembled transaction and
broadcasts it, then waits for confirmation; the driver state is not mutated
here (rollback on failure is performed by the calling workflow). -/
def sign_and_send_transaction (o : Oracle) (s : CkbChain) (evs : List Event)
    (_tx : Tx) : Except Error Unit × CkbChain × List Event :=
  (sign_and_send_result o, s, evs ++ sign_send_trace o)

/-- Embedding of `CkbChain::get_new_client_and_proof`: align the native updates with the
cached on-chain client, run verification (which appends the verified slots to
the Local Proof Store and hands back the pre-mutation checkpoint), then apply
the caller-owned minimal-span policy check, rolling back and failing when the
new client record spans fewer slots than `minimal_updates_count`. -/
def get_new_client_and_proof (o : Oracle) (s : CkbChain) (evs : List Event)
    (minimal_updates_count : Nat) :
    Except Error (Client × Nat × Option Nat) × CkbChain × List Event :=
  let evs := evs ++ [Event.align_call]
  match o.align with
  | .error e => (.error e, s, evs)
  | .ok _ =>
    let evs := evs ++ [Event.verify_call]
    match o.verify with
    | .error e => (.error e, s, evs)
    | .ok (new_client, proof) =>
      let prev_slot_opt := s.storage.getLast?
      let s := { s with storage := s.storage ++ o.verified_slots }
      if new_client.maximal_slot - new_client.minimal_slot + 1
          < minimal_updates_count then
        let evs := evs ++ [Event.rollback_call prev_slot_opt]
        if o.rollback_ok then
          (.error (.other_error ("not enough updates to update multi-client")),
            { s with storage := rollback_to s.storage prev_slot_opt }, evs)
        else
          (.error .storage_error, s, evs)
      else
        (.ok (new_client, proof, prev_slot_opt), s, evs)

/-- Embedding of `CkbChain::create_eth_multi_client`: when a type id is already configured,
fetch the family's cells and report the family as already created at the
on-chain base slot (caching the latest on-chain client); otherwise verify the
updates, build `cells_count - 1` identical client records with ids
`0..cells_count-1` and a `ClientInfo { last_id: 0, minimal_updates_count }`,
assemble the create transaction, sign and send it (rolling the store back to
the checkpoint if that fails, and reporting a rollback failure in its place),
then write the minted type id back into the in-memory configuration. -/
def create_eth_multi_client (o : Oracle) (s : CkbChain) :
    Except Error (List Unit) × CkbChain × List Event :=
  let chain_id := s.id
  let minimal_updates_count := s.config.minimal_updates_count
  match s.config.client_type_args.type_id with
  | some _ =>
    let evs := [Event.fetch_cells_call]
    match o.fetch_update_cells with
    | .error e => (.error e, s, evs)
    | .ok (some update_cells) =>
      let latest_client := update_cells.latest
      let s := { s with cached_onchain_packed_client := some latest_client }
      (.error (.light_client_verification chain_id latest_client.minimal_slot),
        s, evs)
    | .ok none =>
      (.error (.other_error ("no multi-client cells found for config")), s, evs)
  | none =>
    let client_count := s.config.client_type_args.cells_count - 1
    let gr := get_new_client_and_proof o s [] minimal_updates_count
    match gr.1 with
    | .error e => (.error e, gr.2.1, gr.2.2)
    | .ok (packed_client, _proof, prev_slot_opt) =>
      let s := gr.2.1
      let evs := gr.2.2
      let clients :=
        (List.range client_count).map fun i => { packed_client with id := i }
      let client_info : ClientInfo :=
        { last_id := 0, minimal_updates_count := minimal_updates_count }
      match o.tx_assembler_address with
      | .error e => (.error e, s, evs)
      | .ok _ =>
        let evs := evs ++ [Event.assemble_create_call clients client_info]
        match o.assemble_create with
        | .error e => (.error e, s, evs)
        | .ok type_id =>
          let tx := Tx.create_tx
            (assemble_create_multi_client_transaction clients client_info
              type_id)
          let sr := sign_and_send_transaction o s evs tx
          match sr.1 with
          | .error err =>
            let s := sr.2.1
            let evs := sr.2.2 ++ [Event.rollback_call prev_slot_opt]
            if o.rollback_ok then
              (.error err,
                { s with storage := rollback_to s.storage prev_slot_opt }, evs)
            else
              (.error .storage_error, s, evs)
          | .ok _ =>
            let s := sr.2.1
            let s := { s with config := { s.config with
              client_type_args := { s.config.client_type_args with
                type_id := some type_id } } }
            let evs := sr.2.2 ++ [Event.status_log_call]
            match o.print_status with
            | .error e => (.error e, s, evs)
            | .ok _ => (.ok [], s, evs)

/-- Embedding of `CkbChain::update_eth_multi_client`: require a configured type id, fetch
the `UpdateCells` snapshot (caching the latest on-chain client), read the
on-chain `minimal_updates_count`, verify the updates, re-tag the verified
client with the oldest cell's id, assemble the update transaction, sign and
send it (rolling the store back to the checkpoint if that fails, and
reporting a rollback failure in its place). -/
def update_eth_multi_client (o : Oracle) (s : CkbChain) :
    Except Error (List Unit) × CkbChain × List Event :=
  match s.config.client_type_args.type_id with
  | none => (.error (.other_error ("no type id in client type args")), s, [])
  | some _ =>
    let evs := [Event.fetch_cells_call]
    match o.fetch_update_cells with
    | .error e => (.error e, s, evs)
    | .ok none => (.error (.other_error ("no multi-client cells found")), s, evs)
    | .ok (some update_cells) =>
      let s :=
        { s with cached_onchain_packed_client := some update_cells.latest }
      let minimal_updates_count := update_cells.info.minimal_updates_count
      let gr := get_new_client_and_proof o s evs minimal_updates_count
      match gr.1 with
      | .error e => (.error e, gr.2.1, gr.2.2)
      | .ok (updated_client, _proof, prev_slot_opt) =>
        let s := gr.2.1
        let evs := gr.2.2
        let updated_client :=
          { updated_client with id := update_cells.oldest.id }
        match o.tx_assembler_address with
        | .error e => (.error e, s, evs)
        | .ok _ =>
          let evs :=
            evs ++ [Event.assemble_update_call update_cells updated_client]
          match o.assemble_update with
          | .error e => (.error e, s, evs)
          | .ok _ =>
            let tx := Tx.update_tx
              (assemble_update_multi_client_transaction update_cells
                updated_client)
            let sr := sign_and_send_transaction o s evs tx
            match sr.1 with
            | .error err =>
              let s := sr.2.1
              let evs := sr.2.2 ++ [Event.rollback_call prev_slot_opt]
              if o.rollback_ok then
                (.error err,
                  { s with storage := rollback_to s.storage prev_slot_opt },
                  evs)
              else
                (.error .storage_error, s, evs)
            | .ok _ =>
              let s := sr.2.1
              let evs := sr.2.2 ++ [Event.status_log_call]
              match o.print_status with
              | .error e => (.error e, s, evs)
              | .ok _ => (.ok [], s, evs)

/-- A ckb client state value, as wrapped by the polymorphic dispatch enum. -/
structure CkbClientState where
  chain_id : String
deriving DecidableEq

/-- The polymorphic client-state union (`AnyClientState`); only the `ckb`
variant's payload matters to the claims, the other variants' payloads are kept
opaque. -/
inductive AnyClientState where
  | tendermint (payload : Nat)
  | eth (payload : Nat)
  | ckb (state : CkbClientState)
  | axon (payload : Nat)
deriving DecidableEq

/-- A client identifier. -/
structure ClientId where
  raw : String
deriving DecidableEq

/-- Modelled from the spec: `ClientId::default()` of the relayer-types crate,
the default client id used by `query_clients`; its concrete rendering is
irrelevant to the claims. -/
def ClientId.default_id : ClientId := { raw := "" }

/-- A client state tagged with its identifier. -/
structure IdentifiedAnyClientState where
  client_id : ClientId
  client_state : AnyClientState
deriving DecidableEq

/-- The query request; `query_clients` ignores its contents. -/
structure QueryClientStatesRequest where
  pagination : Option Nat
deriving DecidableEq

/-- Embedding of `CkbChain::query_clients`: infallible; yields one identified ckb client
state carrying the driver's chain id and the default client id exactly when an
on-chain packed client is cached, and nothing otherwise. -/
def query_clients (s : CkbChain) (_request : QueryClientStatesRequest) :
    Except Error (List IdentifiedAnyClientState) :=
  .ok (if s.cached_onchain_packed_client.isSome then
        [{ client_id := ClientId.default_id
           client_state := AnyClientState.ckb { chain_id := s.id } }]
      else [])

/-- Rolling the store back to the tip it had before an append restores it
exactly, provided the store is tip-bounded and the appended slots extend the
tip. -/
theorem rollback_append (slots app : List Nat)
    (h : storeOkBool slots app = true) :
    rollback_to (slots ++ app) slots.getLast? = slots := by
  cases hl : slots.getLast? with
  | none =>
    have hnil : slots = [] := List.getLast?_eq_none_iff.mp hl
    subst hnil
    simp [rollback_to]
  | some t =>
    unfold storeOkBool at h
    rw [hl] at h
    simp only [Bool.and_eq_true, List.all_eq_true, decide_eq_true_eq] at h
    obtain ⟨h1, h2⟩ := h
    simp only [rollback_to, List.filter_append]
    rw [List.filter_eq_self.mpr, List.filter_eq_nil_iff.mpr]
    · simp
    · intro a ha
      simp only [decide_eq_true_eq, Nat.not_le]
      exact h2 a ha
    · intro a ha
      simp only [decide_eq_true_eq]
      exact h1 a ha

/-- A failing `get_new_client_and_proof` leaves the driver state as it was:
either verification never appended, or the insufficient-updates check rolled
the append back (provided the rollback succeeds and the store is
well-formed). -/
theorem get_new_err_state (o : Oracle) (s : CkbChain) (evs : List Event)
    (m : Nat) (hwf : storeOkBool s.storage o.verified_slots = true)
    (hrb : o.rollback_ok = true) (e : Error)
    (h : (get_new_client_and_proof o s evs m).1 = .error e) :
    (get_new_client_and_proof o s evs m).2.1 = s := by
  cases ha : o.align with
  | error e1 => simp [get_new_client_and_proof, ha]
  | ok u =>
    cases hv : o.verify with
    | error e1 => simp [get_new_client_and_proof, ha, hv]
    | ok pr =>
      obtain ⟨nc, pf⟩ := pr
      by_cases hspan : nc.maximal_slot - nc.minimal_slot + 1 < m
      · simp only [get_new_client_and_proof, ha, hv]
        rw [if_pos hspan, if_pos hrb]
        simp [rollback_append s.storage o.verified_slots hwf]
      · exfalso
        simp only [get_new_client_and_proof, ha, hv] at h
        rw [if_neg hspan] at h
        simp at h

/-- A successful `get_new_client_and_proof` appended exactly the verified
slots to the store, left the rest of the state alone, and returned the
pre-append tip as the checkpoint. -/
theorem get_new_ok_state (o : Oracle) (s : CkbChain) (evs : List Event)
    (m : Nat) (r : Client × Nat × Option Nat)
    (h : (get_new_client_and_proof o s evs m).1 = .ok r) :
    (get_new_client_and_proof o s evs m).2.1 =
      { s with storage := s.storage ++ o.verified_slots } ∧
    r.2.2 = s.storage.getLast? := by
  cases ha : o.align with
  | error e1 => exfalso; simp [get_new_client_and_proof, ha] at h
  | ok u =>
    cases hv : o.verify with
    | error e1 => exfalso; simp [get_new_client_and_proof, ha, hv] at h
    | ok pr =>
      obtain ⟨nc, pf⟩ := pr
      by_cases hspan : nc.maximal_slot - nc.minimal_slot + 1 < m
      · exfalso
        simp only [get_new_client_and_proof, ha, hv] at h
        rw [if_pos hspan] at h
        cases hr : o.rollback_ok <;> rw [hr] at h <;> simp at h
      · simp only [get_new_client_and_proof, ha, hv] at h ⊢
        rw [if_neg hspan] at h ⊢
        simp only [Except.ok.injEq] at h
        subst h
        exact ⟨rfl, rfl⟩

/-- A failing update workflow leaves the Local Proof Store as it was, as long
as the failure is not at address resolution, transaction assembly, the status
log, or the rollback itself. -/
theorem update_err_storage (o : Oracle) (s : CkbChain)
    (hwf : storeOkBool s.storage o.verified_slots = true)
    (hrb : o.rollback_ok = true)
    (haddr : o.tx_assembler_address = Except.ok ())
    (hau : o.assemble_update = Except.ok ())
    (hps : o.print_status = Except.ok ()) (e : Error)
    (h : (update_eth_multi_client o s).1 = .error e) :
    (update_eth_multi_client o s).2.1.storage = s.storage := by
  cases ht : s.config.client_type_args.type_id with
  | none => simp [update_eth_multi_client, ht]
  | some tid =>
    cases hf : o.fetch_update_cells with
    | error e1 => simp [update_eth_multi_client, ht, hf]
    | ok oc =>
      cases oc with
      | none => simp [update_eth_multi_client, ht, hf]
      | some cells =>
        simp only [update_eth_multi_client, ht, hf] at h ⊢
        cases hgr : (get_new_client_and_proof o
            { s with cached_onchain_packed_client := some cells.latest }
            [Event.fetch_cells_call] cells.info.minimal_updates_count).1 with
        | error e1 =>
          simp only [hgr]
          have := get_new_err_state o
            { s with cached_onchain_packed_client := some cells.latest }
            [Event.fetch_cells_call] cells.info.minimal_updates_count
            hwf hrb e1 hgr
          rw [this]
        | ok r =>
          obtain ⟨nc, pf, prev⟩ := r
          have hst := get_new_ok_state o
            { s with cached_onchain_packed_client := some cells.latest }
            [Event.fetch_cells_call] cells.info.minimal_updates_count
            (nc, pf, prev) hgr
          simp only [hgr, haddr, hau, sign_and_send_transaction] at h ⊢
          cases hss : sign_and_send_result o with
          | error e1 =>
            simp only [hss]
            rw [if_pos hrb]
            simp only [hst.1]
            have hprev : prev = s.storage.getLast? := hst.2
            rw [hprev]
            exact rollback_append s.storage o.verified_slots hwf
          | ok u =>
            exfalso
            simp only [hss, hps] at h
            simp at h

/-- A failing create workflow leaves the Local Proof Store as it was, under
the same provisos as `update_err_storage`. -/
theorem create_err_storage (o : Oracle) (s : CkbChain)
    (hwf : storeOkBool s.storage o.verified_slots = true)
    (hrb : o.rollback_ok = true)
    (haddr : o.tx_assembler_address = Except.ok ())
    (hac : ∃ t, o.assemble_create = Except.ok t)
    (hps : o.print_status = Except.ok ()) (e : Error)
    (h : (create_eth_multi_client o s).1 = .error e) :
    (create_eth_multi_client o s).2.1.storage = s.storage := by
  cases ht : s.config.client_type_args.type_id with
  | some tid =>
    cases hf : o.fetch_update_cells with
    | error e1 => simp [create_eth_multi_client, ht, hf]
    | ok oc =>
      cases oc with
      | none => simp [create_eth_multi_client, ht, hf]
      | some cells => simp [create_eth_multi_client, ht, hf]
  | none =>
    obtain ⟨t, hact⟩ := hac
    simp only [create_eth_multi_client, ht] at h ⊢
    cases hgr : (get_new_client_and_proof o s []
        s.config.minimal_updates_count).1 with
    | error e1 =>
      simp only [hgr]
      have := get_new_err_state o s [] s.config.minimal_updates_count
        hwf hrb e1 hgr
      rw [this]
    | ok r =>
      obtain ⟨nc, pf, prev⟩ := r
      have hst := get_new_ok_state o s [] s.config.minimal_updates_count
        (nc, pf, prev) hgr
      simp only [hgr, haddr, hact, sign_and_send_transaction] at h ⊢
      cases hss : sign_and_send_result o with
      | error e1 =>
        simp only [hss]
        rw [if_pos hrb]
        simp only [hst.1]
        have hprev : prev = s.storage.getLast? := hst.2
        rw [hprev]
        exact rollback_append s.storage o.verified_slots hwf
      | ok u =>
        exfalso
        simp only [hss, hps] at h
        simp at h

/-- Evaluation of `get_new_client_and_proof` on the insufficient-span path: alignment and
verification succeed but the span check fails, so the store is rolled back to
the pre-append tip and the insufficient-updates error is returned. -/
theorem get_new_insufficient (o : Oracle) (s : CkbChain) (evs : List Event)
    (m : Nat) (pc : Client) (pf : Nat)
    (ha : o.align = Except.ok ()) (hv : o.verify = Except.ok (pc, pf))
    (hspan : pc.maximal_slot - pc.minimal_slot + 1 < m)
    (hrb : o.rollback_ok = true) :
    get_new_client_and_proof o s evs m =
      (.error (.other_error ("not enough updates to update multi-client")),
        { s with storage :=
          rollback_to (s.storage ++ o.verified_slots) s.storage.getLast? },
        evs ++ [Event.align_call] ++ [Event.verify_call] ++
          [Event.rollback_call s.storage.getLast?]) := by
  simp only [get_new_client_and_proof, ha, hv]
  rw [if_pos hspan, if_pos hrb]

/-- Evaluation of `get_new_client_and_proof` on the sufficient-span path: the verified
client, the proof and the pre-append tip are returned and the verified slots
stay appended. -/
theorem get_new_sufficient (o : Oracle) (s : CkbChain) (evs : List Event)
    (m : Nat) (pc : Client) (pf : Nat)
    (ha : o.align = Except.ok ()) (hv : o.verify = Except.ok (pc, pf))
    (hspan : ¬ (pc.maximal_slot - pc.minimal_slot + 1 < m)) :
    get_new_client_and_proof o s evs m =
      (.ok (pc, pf, s.storage.getLast?),
        { s with storage := s.storage ++ o.verified_slots },
        evs ++ [Event.align_call] ++ [Event.verify_call]) := by
  simp only [get_new_client_and_proof, ha, hv]
  rw [if_neg hspan]

/-- A create invocation against a configured type id only ever performs the
cell fetch, whatever the outcomes are. -/
theorem create_typed_events (o : Oracle) (s : CkbChain) (tid : Nat)
    (ht : s.config.client_type_args.type_id = some tid) :
    (create_eth_multi_client o s).2.2 = [Event.fetch_cells_call] := by
  cases hf : o.fetch_update_cells with
  | error e => simp [create_eth_multi_client, ht, hf]
  | ok oc => cases oc <;> simp [create_eth_multi_client, ht, hf]

/-- Fixture: a verified client record spanning 21 slots. -/
def sample_client : Client :=
  { id := 0, minimal_slot := 100, maximal_slot := 120, payload := 7 }

/-- Fixture: a verified client record spanning only 5 slots. -/
def sample_small_client : Client :=
  { id := 0, minimal_slot := 100, maximal_slot := 104, payload := 7 }

/-- Fixture: an on-chain `UpdateCells` snapshot whose oldest slot has id 2 and
whose info cell demands at least 10 slots per update. -/
def sample_cells : UpdateCells :=
  { oldest := { id := 2, minimal_slot := 10, maximal_slot := 30, payload := 3 }
    latest := { id := 1, minimal_slot := 80, maximal_slot := 99, payload := 4 }
    info := { last_id := 1, minimal_updates_count := 10 } }

/-- Fixture: a configuration with a configured type id. -/
def sample_config_typed : CkbChainConfig :=
  { id := "ckb", minimal_updates_count := 10
    client_type_args := { type_id := some 1, cells_count := 5 } }

/-- Fixture: a configuration without a type id (pre-bootstrap). -/
def sample_config_untyped : CkbChainConfig :=
  { sample_config_typed with
    client_type_args := { type_id := none, cells_count := 5 } }

/-- Fixture: driver state with a configured type id and three stored slots. -/
def sample_state_typed : CkbChain :=
  { config := sample_config_typed, storage := [1, 2, 3]
    cached_onchain_packed_client := none }

/-- Fixture: pre-bootstrap driver state. -/
def sample_state_untyped : CkbChain :=
  { sample_state_typed with config := sample_config_untyped }

/-- Fixture: an oracle on which every external call succeeds. -/
def sample_oracle : Oracle :=
  { fetch_update_cells := .ok (some sample_cells)
    align := .ok ()
    verify := .ok (sample_client, 0)
    verified_slots := [4, 5]
    rollback_ok := true
    tx_assembler_address := .ok ()
    assemble_create := .ok 42
    assemble_update := .ok ()
    get_key := .ok ()
    network := .ok ()
    sign := .ok ()
    send := .ok 0
    send_err_is_duplicate := false
    pool_diag := none
    tx_json := "txjson"
    committed_at := fun _ => true
    print_status := .ok () }

/-- Fixture: as `sample_oracle` but the broadcast fails. -/
def sample_oracle_send_fail : Oracle :=
  { sample_oracle with send := .error "transport unreachable" }

/-- Fixture: as `sample_oracle` but verification yields a 5-slot record. -/
def sample_oracle_small : Oracle :=
  { sample_oracle with verify := .ok (sample_small_client, 0) }

/-- Fixture: broadcast fails and the rollback also fails. -/
def sample_oracle_rb_fail : Oracle :=
  { sample_oracle_send_fail with rollback_ok := false }

/-- Fixture: broadcast fails with a duplicate-transaction condition and a
pool diagnostic is available. -/
def sample_oracle_dup : Oracle :=
  { sample_oracle_send_fail with
    send_err_is_duplicate := true
    pool_diag := some "pool: 1 pending" }

/-- C1: every create or update invocation that fails at alignment, at the
insufficient-updates check, at signing, at broadcast, or at the confirmation
deadline leaves the Local Proof Store's tip equal to its tip before the
verification step — the store is either never mutated or rolled back to the
pre-verification checkpoint before the error propagates.  The hypotheses pin
the steps outside the claim's list (address resolution, transaction assembly,
the status log, and the rollback operation itself) to succeed, and require
the store and the verifier's appended slots to be well-formed. -/
theorem c1_rollback_consistency (o : Oracle) (s : CkbChain)
    (hwf : storeOkBool s.storage o.verified_slots = true)
    (hrb : o.rollback_ok = true)
    (haddr : o.tx_assembler_address = Except.ok ())
    (hac : ∃ t, o.assemble_create = Except.ok t)
    (hau : o.assemble_update = Except.ok ())
    (hps : o.print_status = Except.ok ()) :
    (∀ e, (update_eth_multi_client o s).1 = .error e →
      (update_eth_multi_client o s).2.1.storage.getLast? =
        s.storage.getLast?) ∧
    (∀ e, (create_eth_multi_client o s).1 = .error e →
      (create_eth_multi_client o s).2.1.storage.getLast? =
        s.storage.getLast?) := by
  constructor
  · intro e he
    rw [update_err_storage o s hwf hrb haddr hau hps e he]
  · intro e he
    rw [create_err_storage o s hwf hrb haddr hac hps e he]

/-- Witness for C1 at a broadcast failure on concrete fixtures. -/
theorem c1_rollback_consistency_witness :
    (∀ e, (update_eth_multi_client sample_oracle_send_fail
        sample_state_typed).1 = .error e →
      (update_eth_multi_client sample_oracle_send_fail
        sample_state_typed).2.1.storage.getLast? =
        sample_state_typed.storage.getLast?) ∧
    (∀ e, (create_eth_multi_client sample_oracle_send_fail
        sample_state_typed).1 = .error e →
      (create_eth_multi_client sample_oracle_send_fail
        sample_state_typed).2.1.storage.getLast? =
        sample_state_typed.storage.getLast?) :=
  c1_rollback_consistency sample_oracle_send_fail sample_state_typed
    (by decide) rfl rfl ⟨42, rfl⟩ rfl rfl

/-- C3: a create invocation against an already-bootstrapped family (type id
configured and cells found on-chain) returns the specialized
already-exists-at-slot result carrying the on-chain base slot, leaves the
Local Proof Store untouched, and performs no verification, assembly, signing
or broadcast. -/
theorem c3_bootstrap_uniqueness (o : Oracle) (s : CkbChain) (tid : Nat)
    (cells : UpdateCells)
    (ht : s.config.client_type_args.type_id = some tid)
    (hf : o.fetch_update_cells = Except.ok (some cells)) :
    (create_eth_multi_client o s).1 =
      .error (.light_client_verification s.id cells.latest.minimal_slot) ∧
    (create_eth_multi_client o s).2.1.storage = s.storage ∧
    Event.verify_call ∉ (create_eth_multi_client o s).2.2 ∧
    (∀ cs ci,
      Event.assemble_create_call cs ci ∉ (create_eth_multi_client o s).2.2) ∧
    Event.sign_call ∉ (create_eth_multi_client o s).2.2 ∧
    Event.send_call ∉ (create_eth_multi_client o s).2.2 := by
  refine ⟨?_, ?_, ?_, ?_, ?_, ?_⟩ <;>
    simp [create_eth_multi_client, ht, hf, CkbChain.id]

/-- Witness for C3 on concrete fixtures. -/
theorem c3_bootstrap_uniqueness_witness :
    (create_eth_multi_client sample_oracle sample_state_typed).1 =
      .error (.light_client_verification sample_state_typed.id
        sample_cells.latest.minimal_slot) ∧
    (create_eth_multi_client sample_oracle sample_state_typed).2.1.storage =
      sample_state_typed.storage ∧
    Event.verify_call ∉
      (create_eth_multi_client sample_oracle sample_state_typed).2.2 ∧
    (∀ cs ci, Event.assemble_create_call cs ci ∉
      (create_eth_multi_client sample_oracle sample_state_typed).2.2) ∧
    Event.sign_call ∉
      (create_eth_multi_client sample_oracle sample_state_typed).2.2 ∧
    Event.send_call ∉
      (create_eth_multi_client sample_oracle sample_state_typed).2.2 :=
  c3_bootstrap_uniqueness sample_oracle sample_state_typed 1 sample_cells
    rfl rfl

/-- C2: when the verified client record spans fewer slots than the applicable
`minimal_updates_count` (the on-chain info cell's value for update, the
configured value for create), the workflow rolls the Local Proof Store back
to the pre-verification checkpoint and fails with the insufficient-updates
error, and transaction assembly, signing and broadcast are never invoked for
that attempt. -/
theorem c2_minimal_span_enforcement (o : Oracle) (su sc : CkbChain)
    (tid : Nat) (cells : UpdateCells) (pc : Client) (pf : Nat)
    (hwu : storeOkBool su.storage o.verified_slots = true)
    (hwc : storeOkBool sc.storage o.verified_slots = true)
    (hrb : o.rollback_ok = true)
    (htu : su.config.client_type_args.type_id = some tid)
    (htc : sc.config.client_type_args.type_id = none)
    (hf : o.fetch_update_cells = Except.ok (some cells))
    (ha : o.align = Except.ok ())
    (hv : o.verify = Except.ok (pc, pf))
    (hsu : pc.maximal_slot - pc.minimal_slot + 1 <
      cells.info.minimal_updates_count)
    (hsc : pc.maximal_slot - pc.minimal_slot + 1 <
      sc.config.minimal_updates_count) :
    ((update_eth_multi_client o su).1 =
        .error (.other_error ("not enough updates to update multi-client")) ∧
      (update_eth_multi_client o su).2.1.storage = su.storage ∧
      (∀ cs c,
        Event.assemble_update_call cs c ∉ (update_eth_multi_client o su).2.2) ∧
      Event.sign_call ∉ (update_eth_multi_client o su).2.2 ∧
      Event.send_call ∉ (update_eth_multi_client o su).2.2) ∧
    ((create_eth_multi_client o sc).1 =
        .error (.other_error ("not enough updates to update multi-client")) ∧
      (create_eth_multi_client o sc).2.1.storage = sc.storage ∧
      (∀ cs ci,
        Event.assemble_create_call cs ci ∉ (create_eth_multi_client o sc).2.2) ∧
      Event.sign_call ∉ (create_eth_multi_client o sc).2.2 ∧
      Event.send_call ∉ (create_eth_multi_client o sc).2.2) := by
  have hu := get_new_insufficient o
    { su with cached_onchain_packed_client := some cells.latest }
    [Event.fetch_cells_call] cells.info.minimal_updates_count pc pf
    ha hv hsu hrb
  have hc := get_new_insufficient o sc [] sc.config.minimal_updates_count
    pc pf ha hv hsc hrb
  refine ⟨⟨?_, ?_, ?_, ?_, ?_⟩, ⟨?_, ?_, ?_, ?_, ?_⟩⟩ <;>
    simp [update_eth_multi_client, create_eth_multi_client, htu, htc, hf,
      hu, hc, rollback_append su.storage o.verified_slots hwu,
      rollback_append sc.storage o.verified_slots hwc]

/-- Witness for C2 on concrete fixtures (a 5-slot record against a 10-slot
minimum). -/
theorem c2_minimal_span_enforcement_witness :
    ((update_eth_multi_client sample_oracle_small sample_state_typed).1 =
        .error (.other_error ("not enough updates to update multi-client")) ∧
      (update_eth_multi_client sample_oracle_small
        sample_state_typed).2.1.storage = sample_state_typed.storage ∧
      (∀ cs c, Event.assemble_update_call cs c ∉
        (update_eth_multi_client sample_oracle_small sample_state_typed).2.2) ∧
      Event.sign_call ∉
        (update_eth_multi_client sample_oracle_small sample_state_typed).2.2 ∧
      Event.send_call ∉
        (update_eth_multi_client sample_oracle_small sample_state_typed).2.2) ∧
    ((create_eth_multi_client sample_oracle_small sample_state_untyped).1 =
        .error (.other_error ("not enough updates to update multi-client")) ∧
      (create_eth_multi_client sample_oracle_small
        sample_state_untyped).2.1.storage = sample_state_untyped.storage ∧
      (∀ cs ci, Event.assemble_create_call cs ci ∉
        (create_eth_multi_client sample_oracle_small
          sample_state_untyped).2.2) ∧
      Event.sign_call ∉
        (create_eth_multi_client sample_oracle_small
          sample_state_untyped).2.2 ∧
      Event.send_call ∉
        (create_eth_multi_client sample_oracle_small
          sample_state_untyped).2.2) :=
  c2_minimal_span_enforcement sample_oracle_small sample_state_typed
    sample_state_untyped 1 sample_cells sample_small_client 0
    (by decide) (by decide) rfl rfl rfl rfl rfl rfl (by decide) (by decide)

/-- C4: in the update workflow, the verified client record is re-tagged with
the id held by the oldest cell of the fetched `UpdateCells` snapshot before
being handed to the transaction assembler, and the assembled transaction's
new client cell (and bumped info cell's `last_id`) carry that oldest id. -/
theorem c4_retag_oldest_id (o : Oracle) (s : CkbChain) (tid : Nat)
    (cells : UpdateCells) (pc : Client) (pf : Nat)
    (ht : s.config.client_type_args.type_id = some tid)
    (hf : o.fetch_update_cells = Except.ok (some cells))
    (ha : o.align = Except.ok ()) (hv : o.verify = Except.ok (pc, pf))
    (hspan : ¬ (pc.maximal_slot - pc.minimal_slot + 1 <
      cells.info.minimal_updates_count))
    (haddr : o.tx_assembler_address = Except.ok ()) :
    Event.assemble_update_call cells { pc with id := cells.oldest.id } ∈
      (update_eth_multi_client o s).2.2 ∧
    (assemble_update_multi_client_transaction cells
      { pc with id := cells.oldest.id }).new_client.id = cells.oldest.id ∧
    (assemble_update_multi_client_transaction cells
      { pc with id := cells.oldest.id }).new_info.last_id = cells.oldest.id := by
  refine ⟨?_, rfl, rfl⟩
  have hg := get_new_sufficient o
    { s with cached_onchain_packed_client := some cells.latest }
    [Event.fetch_cells_call] cells.info.minimal_updates_count pc pf ha hv hspan
  cases hau : o.assemble_update with
  | error e1 =>
    simp [update_eth_multi_client, ht, hf, hg, haddr, hau]
  | ok u =>
    cases hss : sign_and_send_result o with
    | error e1 =>
      cases hrbv : o.rollback_ok <;>
        simp [update_eth_multi_client, ht, hf, hg, haddr, hau,
          sign_and_send_transaction, hss, hrbv]
    | ok u2 =>
      cases hp : o.print_status <;>
        simp [update_eth_multi_client, ht, hf, hg, haddr, hau,
          sign_and_send_transaction, hss, hp]

/-- Witness for C4 on concrete fixtures (oldest slot id 2). -/
theorem c4_retag_oldest_id_witness :
    Event.assemble_update_call sample_cells
      { sample_client with id := sample_cells.oldest.id } ∈
      (update_eth_multi_client sample_oracle sample_state_typed).2.2 ∧
    (assemble_update_multi_client_transaction sample_cells
      { sample_client with id := sample_cells.oldest.id }).new_client.id =
      sample_cells.oldest.id ∧
    (assemble_update_multi_client_transaction sample_cells
      { sample_client with id := sample_cells.oldest.id }).new_info.last_id =
      sample_cells.oldest.id :=
  c4_retag_oldest_id sample_oracle sample_state_typed 1 sample_cells
    sample_client 0 rfl rfl rfl rfl (by decide) rfl

/-- C5: the create workflow hands the assembler exactly `cells_count - 1`
client records, all copies of the verified record differing only in their id,
the record at position `i` carrying id `i` (so the ids take every value of
`0..cells_count-1`), together with a `ClientInfo` whose `last_id` is 0 and
whose `minimal_updates_count` is the configured value. -/
theorem c5_create_assembler_arguments (o : Oracle) (s : CkbChain)
    (pc : Client) (pf : Nat)
    (hcc : 1 ≤ s.config.client_type_args.cells_count)
    (ht : s.config.client_type_args.type_id = none)
    (ha : o.align = Except.ok ()) (hv : o.verify = Except.ok (pc, pf))
    (hspan : ¬ (pc.maximal_slot - pc.minimal_slot + 1 <
      s.config.minimal_updates_count))
    (haddr : o.tx_assembler_address = Except.ok ()) :
    ∃ clients info,
      Event.assemble_create_call clients info ∈
        (create_eth_multi_client o s).2.2 ∧
      clients.length = s.config.client_type_args.cells_count - 1 ∧
      (∀ i, ∀ h : i < clients.length, clients.get ⟨i, h⟩ = { pc with id := i }) ∧
      info.last_id = 0 ∧
      info.minimal_updates_count = s.config.minimal_updates_count := by
  refine ⟨(List.range (s.config.client_type_args.cells_count - 1)).map
      (fun i => { pc with id := i }),
    { last_id := 0, minimal_updates_count := s.config.minimal_updates_count },
    ?_, by simp, ?_, rfl, rfl⟩
  · have hg := get_new_sufficient o s [] s.config.minimal_updates_count
      pc pf ha hv hspan
    cases hac : o.assemble_create with
    | error e1 =>
      simp [create_eth_multi_client, ht, hg, haddr, hac]
    | ok t2 =>
      cases hss : sign_and_send_result o with
      | error e1 =>
        cases hrbv : o.rollback_ok <;>
          simp [create_eth_multi_client, ht, hg, haddr, hac,
            sign_and_send_transaction, hss, hrbv]
      | ok u2 =>
        cases hp : o.print_status <;>
          simp [create_eth_multi_client, ht, hg, haddr, hac,
            sign_and_send_transaction, hss, hp]
  · intro i h
    simp [List.get_eq_getElem, List.getElem_map, List.getElem_range]

/-- Witness for C5 on concrete fixtures (`cells_count = 5`, four records). -/
theorem c5_create_assembler_arguments_witness :
    ∃ clients info,
      Event.assemble_create_call clients info ∈
        (create_eth_multi_client sample_oracle sample_state_untyped).2.2 ∧
      clients.length =
        sample_state_untyped.config.client_type_args.cells_count - 1 ∧
      (∀ i, ∀ h : i < clients.length,
        clients.get ⟨i, h⟩ = { sample_client with id := i }) ∧
      info.last_id = 0 ∧
      info.minimal_updates_count =
        sample_state_untyped.config.minimal_updates_count :=
  c5_create_assembler_arguments sample_oracle sample_state_untyped
    sample_client 0 (by decide) rfl rfl rfl (by decide) rfl

/-- C6: when the submission fails and the subsequent rollback of the Local
Proof Store itself fails, both workflows return the storage (rollback) error
in place of the original submission error — the rollback failure is never
swallowed. -/
theorem c6_rollback_failure_reported (o : Oracle) (su sc : CkbChain)
    (tid t2 : Nat) (cells : UpdateCells) (pc : Client) (pf : Nat)
    (msg : String)
    (htu : su.config.client_type_args.type_id = some tid)
    (htc : sc.config.client_type_args.type_id = none)
    (hf : o.fetch_update_cells = Except.ok (some cells))
    (ha : o.align = Except.ok ())
    (hv : o.verify = Except.ok (pc, pf))
    (hsu : ¬ (pc.maximal_slot - pc.minimal_slot + 1 <
      cells.info.minimal_updates_count))
    (hsc : ¬ (pc.maximal_slot - pc.minimal_slot + 1 <
      sc.config.minimal_updates_count))
    (haddr : o.tx_assembler_address = Except.ok ())
    (hac : o.assemble_create = Except.ok t2)
    (hau : o.assemble_update = Except.ok ())
    (hk : o.get_key = Except.ok ()) (hn : o.network = Except.ok ())
    (hsg : o.sign = Except.ok ())
    (hsend : o.send = Except.error msg)
    (hrb : o.rollback_ok = false) :
    (update_eth_multi_client o su).1 = .error .storage_error ∧
    (create_eth_multi_client o sc).1 = .error .storage_error := by
  have hgu := get_new_sufficient o
    { su with cached_onchain_packed_client := some cells.latest }
    [Event.fetch_cells_call] cells.info.minimal_updates_count pc pf ha hv hsu
  have hgc := get_new_sufficient o sc [] sc.config.minimal_updates_count
    pc pf ha hv hsc
  constructor
  · simp [update_eth_multi_client, htu, hf, hgu, haddr, hau,
      sign_and_send_transaction, sign_and_send_result, hk, hn, hsg, hsend,
      hrb]
  · simp [create_eth_multi_client, htc, hgc, haddr, hac,
      sign_and_send_transaction, sign_and_send_result, hk, hn, hsg, hsend,
      hrb]

/-- Witness for C6 on concrete fixtures. -/
theorem c6_rollback_failure_reported_witness :
    (update_eth_multi_client sample_oracle_rb_fail sample_state_typed).1 =
      .error .storage_error ∧
    (create_eth_multi_client sample_oracle_rb_fail sample_state_untyped).1 =
      .error .storage_error :=
  c6_rollback_failure_reported sample_oracle_rb_fail sample_state_typed
    sample_state_untyped 1 42 sample_cells sample_client 0
    "transport unreachable" rfl rfl rfl rfl rfl (by decide) (by decide)
    rfl rfl rfl rfl rfl rfl rfl rfl

/-- C7: when broadcasting the signed transaction fails, the returned value is
still an error, and its text starts with the transport's error message
followed by the best-effort transaction-pool diagnostic fragment, which is
collected exactly when the failure is a duplicate-transaction condition and
is empty otherwise. -/
theorem c7_broadcast_failure_diagnostics (o : Oracle) (s : CkbChain)
    (evs : List Event) (tx : Tx) (msg : String)
    (hk : o.get_key = Except.ok ()) (hn : o.network = Except.ok ())
    (hsg : o.sign = Except.ok ()) (hsend : o.send = Except.error msg) :
    ∃ rest, (sign_and_send_transaction o s evs tx).1 =
        .error (.send_tx (msg ++ "\n" ++
          ((collect_ckb_tx_pool_info_on_duplicate_tx o.send_err_is_duplicate
            o.pool_diag).getD "") ++ rest)) ∧
      (o.send_err_is_duplicate = false →
        (collect_ckb_tx_pool_info_on_duplicate_tx o.send_err_is_duplicate
          o.pool_diag).getD "" = "") ∧
      (∀ d, o.send_err_is_duplicate = true → o.pool_diag = some d →
        (collect_ckb_tx_pool_info_on_duplicate_tx o.send_err_is_duplicate
          o.pool_diag).getD "" = d) := by
  refine ⟨"\n" ++ ("== transaction for debugging is below ==\n" ++ o.tx_json)
      ++ "\n", ?_, ?_, ?_⟩
  · simp only [sign_and_send_transaction, sign_and_send_result, hk, hn, hsg,
      hsend]
    simp [String.append_assoc]
  · intro hdup
    simp [collect_ckb_tx_pool_info_on_duplicate_tx, hdup]
  · intro d hdup hdiag
    simp [collect_ckb_tx_pool_info_on_duplicate_tx, hdup, hdiag]

/-- Witness for C7 on concrete fixtures (a duplicate-transaction failure with
an available pool diagnostic). -/
theorem c7_broadcast_failure_diagnostics_witness :
    ∃ rest,
      (sign_and_send_transaction sample_oracle_dup sample_state_typed []
        (Tx.update_tx (assemble_update_multi_client_transaction sample_cells
          sample_client))).1 =
        .error (.send_tx ("transport unreachable" ++ "\n" ++
          ((collect_ckb_tx_pool_info_on_duplicate_tx
            sample_oracle_dup.send_err_is_duplicate
            sample_oracle_dup.pool_diag).getD "") ++ rest)) ∧
      (sample_oracle_dup.send_err_is_duplicate = false →
        (collect_ckb_tx_pool_info_on_duplicate_tx
          sample_oracle_dup.send_err_is_duplicate
          sample_oracle_dup.pool_diag).getD "" = "") ∧
      (∀ d, sample_oracle_dup.send_err_is_duplicate = true →
        sample_oracle_dup.pool_diag = some d →
        (collect_ckb_tx_pool_info_on_duplicate_tx
          sample_oracle_dup.send_err_is_duplicate
          sample_oracle_dup.pool_diag).getD "" = d) :=
  c7_broadcast_failure_diagnostics sample_oracle_dup sample_state_typed []
    (Tx.update_tx (assemble_update_multi_client_transaction sample_cells
      sample_client))
    "transport unreachable" rfl rfl rfl rfl

/-- C8: after a successful broadcast the controller polls the transaction
status on a 3-second interval against a 60-second deadline; the submission
succeeds exactly when a committed-to-block status is observed within the
deadline, and otherwise fails with the timeout error. -/
theorem c8_confirmation_poll (o : Oracle) (s : CkbChain) (evs : List Event)
    (tx : Tx) (h : Nat)
    (hk : o.get_key = Except.ok ()) (hn : o.network = Except.ok ())
    (hsg : o.sign = Except.ok ()) (hsend : o.send = Except.ok h) :
    ((sign_and_send_transaction o s evs tx).1 = .ok () ↔
      ∃ k, k < 60 / 3 ∧ o.committed_at k = true) ∧
    ((sign_and_send_transaction o s evs tx).1 = .ok () ∨
      (sign_and_send_transaction o s evs tx).1 = .error .time_out) := by
  have hw : (sign_and_send_transaction o s evs tx).1 =
      wait_ckb_transaction_committed o.committed_at 3 60 := by
    simp [sign_and_send_transaction, sign_and_send_result, hk, hn, hsg, hsend]
  rw [hw]
  unfold wait_ckb_transaction_committed
  by_cases hany : (List.range (60 / 3)).any o.committed_at = true
  · rw [if_pos hany]
    refine ⟨⟨fun _ => ?_, fun _ => rfl⟩, Or.inl rfl⟩
    obtain ⟨x, hx, hpx⟩ := List.any_eq_true.mp hany
    exact ⟨x, List.mem_range.mp hx, hpx⟩
  · rw [if_neg hany]
    refine ⟨⟨fun hcon => absurd hcon (by simp), fun hex => ?_⟩, Or.inr rfl⟩
    obtain ⟨k, hk2, hck⟩ := hex
    exact absurd (List.any_eq_true.mpr ⟨k, List.mem_range.mpr hk2, hck⟩) hany

/-- Witness for C8 on concrete fixtures (committed at the first poll). -/
theorem c8_confirmation_poll_witness :
    ((sign_and_send_transaction sample_oracle sample_state_typed []
        (Tx.update_tx (assemble_update_multi_client_transaction sample_cells
          sample_client))).1 = .ok () ↔
      ∃ k, k < 60 / 3 ∧ sample_oracle.committed_at k = true) ∧
    ((sign_and_send_transaction sample_oracle sample_state_typed []
        (Tx.update_tx (assemble_update_multi_client_transaction sample_cells
          sample_client))).1 = .ok () ∨
      (sign_and_send_transaction sample_oracle sample_state_typed []
        (Tx.update_tx (assemble_update_multi_client_transaction sample_cells
          sample_client))).1 = .error .time_out) :=
  c8_confirmation_poll sample_oracle sample_state_typed []
    (Tx.update_tx (assemble_update_multi_client_transaction sample_cells
      sample_client)) 0 rfl rfl rfl rfl

/-- C9: on successful completion of the create workflow the driver writes the
minted type id into its own in-memory configuration and returns the empty
event list (the caller is never handed the type id); any subsequent create
call on the resulting driver state takes the already-bootstrapped path,
performing no verification and never minting a second family. -/
theorem c9_type_id_written_back (o : Oracle) (s : CkbChain) (pc : Client)
    (pf t2 : Nat)
    (ht : s.config.client_type_args.type_id = none)
    (ha : o.align = Except.ok ()) (hv : o.verify = Except.ok (pc, pf))
    (hspan : ¬ (pc.maximal_slot - pc.minimal_slot + 1 <
      s.config.minimal_updates_count))
    (haddr : o.tx_assembler_address = Except.ok ())
    (hac : o.assemble_create = Except.ok t2)
    (hk : o.get_key = Except.ok ()) (hn : o.network = Except.ok ())
    (hsg : o.sign = Except.ok ()) (h : Nat) (hsend : o.send = Except.ok h)
    (hcm : (List.range (60 / 3)).any o.committed_at = true)
    (hps : o.print_status = Except.ok ()) :
    (create_eth_multi_client o s).1 = .ok [] ∧
    (create_eth_multi_client o s).2.1.config.client_type_args.type_id =
      some t2 ∧
    (∀ o' : Oracle,
      Event.verify_call ∉
        (create_eth_multi_client o' (create_eth_multi_client o s).2.1).2.2 ∧
      (∀ cs ci, Event.assemble_create_call cs ci ∉
        (create_eth_multi_client o' (create_eth_multi_client o s).2.1).2.2)) := by
  have hg := get_new_sufficient o s [] s.config.minimal_updates_count
    pc pf ha hv hspan
  have h1 : (create_eth_multi_client o s).1 = .ok [] := by
    simp [create_eth_multi_client, ht, hg, haddr, hac,
      sign_and_send_transaction, sign_and_send_result, hk, hn, hsg, hsend,
      wait_ckb_transaction_committed, hcm, hps]
  have h2 : (create_eth_multi_client o s).2.1.config.client_type_args.type_id
      = some t2 := by
    simp [create_eth_multi_client, ht, hg, haddr, hac,
      sign_and_send_transaction, sign_and_send_result, hk, hn, hsg, hsend,
      wait_ckb_transaction_committed, hcm, hps]
  refine ⟨h1, h2, ?_⟩
  intro o'
  constructor
  · rw [create_typed_events o' _ t2 h2]
    simp
  · intro cs ci
    rw [create_typed_events o' _ t2 h2]
    simp

/-- Witness for C9 on concrete fixtures (successful bootstrap minting type id
42). -/
theorem c9_type_id_written_back_witness :
    (create_eth_multi_client sample_oracle sample_state_untyped).1 = .ok [] ∧
    (create_eth_multi_client sample_oracle
      sample_state_untyped).2.1.config.client_type_args.type_id = some 42 ∧
    (∀ o' : Oracle,
      Event.verify_call ∉
        (create_eth_multi_client o'
          (create_eth_multi_client sample_oracle
            sample_state_untyped).2.1).2.2 ∧
      (∀ cs ci, Event.assemble_create_call cs ci ∉
        (create_eth_multi_client o'
          (create_eth_multi_client sample_oracle
            sample_state_untyped).2.1).2.2)) :=
  c9_type_id_written_back sample_oracle sample_state_untyped sample_client
    0 42 rfl rfl rfl (by decide) rfl rfl rfl rfl rfl 0 rfl rfl rfl

/-- C10: `query_clients` never fails: it returns exactly one identified ckb
client state carrying the driver's chain id and the default client id when an
on-chain packed client is cached, an empty list when none is cached, and its
result does not depend on the request contents. -/
theorem c10_query_clients_total (s : CkbChain)
    (req : QueryClientStatesRequest) :
    (s.cached_onchain_packed_client = none → query_clients s req = .ok []) ∧
    (∀ c, s.cached_onchain_packed_client = some c →
      query_clients s req =
        .ok [{ client_id := ClientId.default_id
               client_state := AnyClientState.ckb { chain_id := s.id } }]) ∧
    (∀ req', query_clients s req = query_clients s req') := by
  refine ⟨?_, ?_, fun req' => rfl⟩
  · intro hn
    simp [query_clients, hn]
  · intro c hc
    simp [query_clients, hc]

/-- Witness for C10 on concrete fixtures (both cache states). -/
theorem c10_query_clients_total_witness :
    (query_clients sample_state_typed { pagination := none } = .ok []) ∧
    (query_clients
        { sample_state_typed with
          cached_onchain_packed_client := some sample_client }
        { pagination := none } =
      .ok [{ client_id := ClientId.default_id
             client_state := AnyClientState.ckb
               { chain_id :=
                  ({ sample_state_typed with
                    cached_onchain_packed_client := some sample_client } :
                      CkbChain).id } }]) :=
  ⟨(c10_query_clients_total sample_state_typed { pagination := none }).1 rfl,
    (c10_query_clients_total
      { sample_state_typed with
        cached_onchain_packed_client := some sample_client }
      { pagination := none }).2.1 sample_client rfl⟩

end CkbDriver
